import Mathlib

/-!
Verification of the extension-management layer of the pig CLI
(src/cmd/extension.go and the detail renderer in package pgext).

The embedding translates the Go source directly:
* `Extension` mirrors the catalog-entry fields consumed by the detail
  template `extensionInfoTmpl`.
* `extensionInfoLines` mirrors the template line by line; Go template
  actions of the form `\x7b\x7b- if ... \x7d\x7d` gate whole lines, so the
  rendered text is faithfully represented as a list of lines joined by
  newlines.
* `extProbeVersion` mirrors the version resolver. The collaborators
  `ext.DetectPostgres` and `ext.GetPostgres` live in package cli/ext,
  outside this slice; they are modelled from the spec (section 6) as an
  environment: detection populates the process-wide active installation,
  and GetPostgres is a lookup returning (Installation, error). Per spec
  section 4.1 step 4, on a successful pg_config lookup the value returned
  by the resolver is the major version read from the resolved
  installation (the Go line reads ext.Postgres.MajorVersion, which at
  that point denotes the installation just resolved by GetPostgres).
* `extInfoCmd` mirrors the RunE body of the info subcommand; its stdout,
  error-log and catalog-lookup traces are recorded explicitly.
-/

namespace Pig

/-- A PostgreSQL installation, identified by its major version
(spec section 3: PostgresInstallation). -/
structure Postgres where
  MajorVersion : Int
deriving DecidableEq

/-- Process-wide state of package cli/ext: ext.Postgres (the current
installation) and ext.Active (the auto-detected active installation). -/
structure ExtState where
  postgres : Option Postgres
  active : Option Postgres
deriving DecidableEq

/-- The persistent flags of the ext command: --version (0 = unset) and
--path (empty = unset). -/
structure Flags where
  extPgVer : Int
  extPgConfig : String
deriving DecidableEq

/-- Environment of black-box collaborators (spec section 1 and 6):
what DetectPostgres would find as the active installation, and what
GetPostgres(identifier) would return (none models the error case).
Modelled from the spec: package cli/ext is not part of this slice. -/
structure Env where
  detectedActive : Option Postgres
  getPostgres : String → Option Postgres

/-- Result of the version resolver: a major version together with the
updated process state, or a process abort with an exit code. -/
inductive ProbeResult where
  | ok (ver : Int) (st : ExtState)
  | exit (code : Nat)
deriving DecidableEq

/-- Outcome of running extProbeVersion: the result, the messages written
to the error log (logrus.Errorf), and the text written to stdout. -/
structure ProbeOutcome where
  result : ProbeResult
  errlog : List String
  stdout : List String
deriving DecidableEq

/-- The mutual-exclusion usage-error message (extension.go line 195). -/
def mutualExclusionMsg : String :=
  "both pg version and pg_config path are specified, please specify only one"

/-- extProbeVersion (extension.go lines 192-229): resolve the PostgreSQL
major version from the flags, the detection side effect and the
GetPostgres collaborator. Modelled from the spec where the collaborators
are outside src/: DetectPostgres populates ext.Active; GetPostgres is a
pure (Installation, error) lookup, and on pg_config success the returned
value is the major version of the resolved installation. -/
def extProbeVersion (env : Env) (fl : Flags) (st0 : ExtState) : ProbeOutcome :=
  -- ext.DetectPostgres(): populates ext.Active
  let st : ExtState := { st0 with active := env.detectedActive }
  if fl.extPgVer ≠ 0 ∧ fl.extPgConfig ≠ "" then
    -- logrus.Errorf(...); os.Exit(1)
    { result := ProbeResult.exit 1, errlog := [mutualExclusionMsg], stdout := [] }
  else if fl.extPgVer ≠ 0 then
    -- GetPostgres(strconv.Itoa(extPgVer)): the result is discarded and a
    -- miss is only debug-logged; the explicit version is returned as-is
    let _ := env.getPostgres (toString fl.extPgVer)
    { result := ProbeResult.ok fl.extPgVer st, errlog := [], stdout := [] }
  else if fl.extPgConfig ≠ "" then
    match env.getPostgres fl.extPgConfig with
    | none =>
      -- logrus.Errorf(...); os.Exit(3)
      { result := ProbeResult.exit 3
        errlog := ["failed to get PostgreSQL by pg_config path " ++ fl.extPgConfig]
        stdout := [] }
    | some p =>
      -- return ext.Postgres.MajorVersion: the resolved installation
      { result := ProbeResult.ok p.MajorVersion st, errlog := [], stdout := [] }
  else
    match st.active with
    | some a =>
      -- ext.Postgres = ext.Active; return ext.Active.MajorVersion
      { result := ProbeResult.ok a.MajorVersion { st with postgres := some a }
        errlog := [], stdout := [] }
    | none => { result := ProbeResult.ok 0 st, errlog := [], stdout := [] }

/-- A catalog entry (package pgext Extension), restricted to the fields
consumed by the detail template and the info command. -/
structure Extension where
  Name : String
  Alias : String
  Category : String
  Version : String
  License : String
  URL : String
  SummaryURL : String
  EnDesc : String
  PgVer : List String
  NeedDDL : Bool
  NeedLoad : Bool
  CreateSQL : String
  SharedLib : String
  SuperUser : String
  Relocatable : String
  SchemaStr : String
  Requires : List String
  NeedBy : List String
  RpmRepo : String
  RpmPkg : String
  RpmVer : String
  RpmPg : List String
  RpmDeps : List String
  DebRepo : String
  DebPkg : String
  DebVer : String
  DebPg : List String
  DebDeps : List String
  BadCase : List String
  Comment : String
deriving DecidableEq

/-- Go fmt verb %-Ns: left-justify, pad with spaces to minimum width N
(strings wider than N are emitted unchanged). -/
def pad (w : Nat) (s : String) : String :=
  s ++ String.mk (List.replicate (w - s.length) ' ')

/-- strings.Join, as registered in the template func map. -/
def join (strs : List String) (sep : String) : String :=
  String.intercalate sep strs

/-- The box-top line of extensionInfoTmpl. -/
def boxTop : String :=
  "╭────────────────────────────────────────────────────────────────────────────╮"

/-- The box-bottom line of extensionInfoTmpl. -/
def boxBottom : String :=
  "╰────────────────────────────────────────────────────────────────────────────╯"

/-- The horizontal separator line of extensionInfoTmpl. -/
def sepLine : String :=
  "├────────────────────────────────────────────────────────────────────────────┤"

/-- The dependency line of the always-present properties block, one of the
two branches of the if .Requires action (template lines 49-53). -/
def dependLine (e : Extension) : String :=
  if e.Requires ≠ [] then
    "│ Depend  :  Yes │  " ++ pad 56 (join e.Requires ", ") ++ " │"
  else
    "│ Depend  :  No  │                                                           │"

/-- The literal rendered by the else-branch of the if .Requires action. -/
def dependNoLine : String :=
  "│ Depend  :  No  │                                                           │"

/-- One item line of the Required By block (template line 59). -/
def needByItem (d : String) : String :=
  "│ - " ++ pad 72 d ++ " │"

/-- The Required By header line (template line 56). -/
def requiredByHeader : String :=
  "│ Required By                                                                │"

/-- The Required By block, gated on NeedBy (template lines 54-61). -/
def needByBlock (e : Extension) : List String :=
  if e.NeedBy ≠ [] then
    sepLine :: requiredByHeader :: sepLine :: e.NeedBy.map needByItem
  else []

/-- The dependency line of the RPM package block (template line 72):
it joins RpmDeps, but its gate in the template is the if .DebDeps action. -/
def rpmDepLine (e : Extension) : String :=
  "│ Dependencies   │  " ++ pad 56 (join e.RpmDeps ", ") ++ " │"

/-- The RPM package block, gated on RpmRepo; the dependency line inside is
gated on DebDeps (template lines 63-74). -/
def rpmPackageBlock (e : Extension) : List String :=
  if e.RpmRepo ≠ "" then
    [sepLine,
     "│ RPM Package                                                                │",
     sepLine,
     "│ Repository     │  " ++ pad 56 e.RpmRepo ++ " │",
     "│ Package        │  " ++ pad 56 e.RpmPkg ++ " │",
     "│ Version        │  " ++ pad 56 e.RpmVer ++ " │",
     "│ Availability   │  " ++ pad 56 (join e.RpmPg ", ") ++ " │"]
    ++ (if e.DebDeps ≠ [] then [rpmDepLine e] else [])
  else []

/-- The dependency line of the DEB package block (template line 85). -/
def debDepLine (e : Extension) : String :=
  "│ Dependencies   │  " ++ pad 56 (join e.DebDeps ", ") ++ " │"

/-- The DEB package block, gated on DebRepo; the dependency line inside is
gated on DebDeps (template lines 76-87). -/
def debPackageBlock (e : Extension) : List String :=
  if e.DebRepo ≠ "" then
    [sepLine,
     "│ DEB Package                                                                │",
     sepLine,
     "│ Repository     │  " ++ pad 56 e.DebRepo ++ " │",
     "│ Package        │  " ++ pad 56 e.DebPkg ++ " │",
     "│ Version        │  " ++ pad 56 e.DebVer ++ " │",
     "│ Availability   │  " ++ pad 56 (join e.DebPg ", ") ++ " │"]
    ++ (if e.DebDeps ≠ [] then [debDepLine e] else [])
  else []

/-- The Known Issues block, gated on BadCase (template lines 89-96). -/
def badCaseBlock (e : Extension) : List String :=
  if e.BadCase ≠ [] then
    [sepLine,
     "│ Known Issues                                                               │",
     sepLine]
    ++ e.BadCase.map (fun c => "│ " ++ pad 74 c ++ " │")
  else []

/-- The Additional Comments block, gated on Comment (template lines 98-103). -/
def commentBlock (e : Extension) : List String :=
  if e.Comment ≠ "" then
    [sepLine,
     "│ Additional Comments                                                        │",
     sepLine,
     "│ " ++ pad 74 e.Comment ++ " │"]
  else []

/-- extensionInfoTmpl rendered against an extension, decomposed into its
lines. The template text begins and ends with a newline, hence the empty
first and last entries; the whitespace-trimming template actions gate
whole lines, which this list reproduces action by action. -/
def extensionInfoLines (e : Extension) : List String :=
  ["",
   boxTop,
   "│ " ++ pad 74 e.Name ++ " │",
   sepLine,
   "│ " ++ pad 74 e.EnDesc ++ " │",
   sepLine,
   "│ Extension : " ++ pad 62 e.Name ++ " │",
   "│ Alias     : " ++ pad 62 e.Alias ++ " │",
   "│ Category  : " ++ pad 62 e.Category ++ " │",
   "│ Version   : " ++ pad 62 e.Version ++ " │",
   "│ License   : " ++ pad 62 e.License ++ " │",
   "│ Website   : " ++ pad 62 e.URL ++ " │",
   "│ Details   : " ++ pad 62 e.SummaryURL ++ " │",
   sepLine,
   "│ Extension Properties                                                       │",
   sepLine,
   "│ PostgreSQL Ver │  Available on: " ++ pad 42 (join e.PgVer ", ") ++ " │",
   "│ CREATE  :  " ++ (if e.NeedDDL then "Yes" else "No ") ++ " │  " ++ pad 56 e.CreateSQL ++ " │",
   "│ DYLOAD  :  " ++ (if e.NeedLoad then "Yes" else "No ") ++ " │  " ++ pad 56 e.SharedLib ++ " │",
   "│ " ++ pad 74 e.SuperUser ++ " │",
   "│ Reloc   :  " ++ (if e.Relocatable = "t" then "Yes" else "No ") ++ " │  " ++ pad 56 e.SchemaStr ++ " │",
   dependLine e]
  ++ needByBlock e
  ++ rpmPackageBlock e
  ++ debPackageBlock e
  ++ badCaseBlock e
  ++ commentBlock e
  ++ [boxBottom, ""]

/-- PrintInfo: execute the template into a buffer and fmt.Println it.
The returned string is everything the call writes to stdout. -/
def Extension.PrintInfo (e : Extension) : String :=
  String.intercalate "\n" (extensionInfoLines e) ++ "\n"

/-- The extension catalog maps consumed by the info command:
ext.Catalog.ExtNameMap keyed by canonical name and
ext.Catalog.ExtAliasMap keyed by alias, as association lists. -/
structure Catalog where
  ExtNameMap : List (String × Extension)
  ExtAliasMap : List (String × Extension)

/-- The per-identifier lookup of the info command (extension.go lines
87-94): the name map is consulted first, the alias map only on a miss. -/
def lookupExtension (cat : Catalog) (name : String) : Option Extension :=
  match cat.ExtNameMap.lookup name with
  | some e => some e
  | none => cat.ExtAliasMap.lookup name

/-- The miss message logged per item (extension.go line 91). -/
def missMsg (name : String) : String :=
  "extension \x27" ++ name ++ "\x27 not found"

/-- Observable effects of the info loop: the cards printed to stdout, the
messages written to the error log, and the identifiers looked up in the
catalog, each in processing order. -/
structure InfoOutput where
  stdout : List String
  errlog : List String
  lookups : List String
deriving DecidableEq

/-- The argument loop of the info command (extension.go lines 86-96):
look each identifier up, log a miss and continue, or print the card. -/
def extInfoLoop (cat : Catalog) : List String → InfoOutput
  | [] => { stdout := [], errlog := [], lookups := [] }
  | name :: rest =>
    let r := extInfoLoop cat rest
    match lookupExtension cat name with
    | some e =>
      { stdout := e.PrintInfo :: r.stdout, errlog := r.errlog, lookups := name :: r.lookups }
    | none =>
      { stdout := r.stdout, errlog := missMsg name :: r.errlog, lookups := name :: r.lookups }

/-- Result of running a subcommand: either the process aborted inside
extProbeVersion (os.Exit), or RunE returned nil with these effects. -/
inductive CmdResult where
  | ok (out : InfoOutput)
  | exit (code : Nat)
deriving DecidableEq

/-- The RunE body of the info subcommand (extension.go lines 83-98):
probe the version (aborting the process if the probe aborts; the probed
value itself is only debug-logged), then process every argument. -/
def extInfoCmd (env : Env) (fl : Flags) (st : ExtState) (cat : Catalog)
    (args : List String) : CmdResult :=
  match (extProbeVersion env fl st).result with
  | ProbeResult.exit c => CmdResult.exit c
  | ProbeResult.ok _ _ => CmdResult.ok (extInfoLoop cat args)

/-! ### Helper lemmas -/

/-- The character of a rendered line at a given index, used to tell the
fixed labels of the template lines apart. -/
def lineTag (n : Nat) (s : String) : Option Char := s.data[n]?

theorem lineTag_append (n : Nat) (a b : String) (h : n < a.data.length) :
    lineTag n (a ++ b) = lineTag n a := by
  simp [lineTag, String.data_append, List.getElem?_append_left h]

theorem lineTag_append2 (n : Nat) (a b c : String) (h : n < a.data.length) :
    lineTag n (a ++ b ++ c) = lineTag n a := by
  have h2 : n < (a ++ b).data.length := by
    rw [String.data_append, List.length_append]; omega
  rw [lineTag_append n _ _ h2, lineTag_append n a b h]

theorem ne_of_lineTag {n : Nat} {s t : String} (h : lineTag n s ≠ lineTag n t) : s ≠ t :=
  fun e => h (congrArg (lineTag n) e)

/-! ### Claims about the version resolver -/

/-- Claim C1: with both the explicit version and the pg_config path set,
extProbeVersion aborts the process with the non-zero status 1 after
logging the mutual-exclusion usage error, prints nothing to stdout, and
the outcome is the same for every environment and prior state — the
abort happens before any detection-dependent logic is consulted. -/
theorem extProbeVersion_mutual_exclusion (env env2 : Env) (fl : Flags)
    (st st2 : ExtState) (hv : fl.extPgVer ≠ 0) (hp : fl.extPgConfig ≠ "") :
    extProbeVersion env fl st =
      { result := ProbeResult.exit 1, errlog := [mutualExclusionMsg], stdout := [] } ∧
    (1 : Nat) ≠ 0 ∧
    extProbeVersion env fl st = extProbeVersion env2 fl st2 := by
  refine ⟨?_, by decide, ?_⟩ <;> simp [extProbeVersion, hv, hp]

theorem extProbeVersion_mutual_exclusion_witness :
    extProbeVersion ⟨none, fun _ => none⟩ ⟨16, "/usr/pgsql-16/bin/pg_config"⟩ ⟨none, none⟩ =
      { result := ProbeResult.exit 1, errlog := [mutualExclusionMsg], stdout := [] } ∧
    (1 : Nat) ≠ 0 ∧
    extProbeVersion ⟨none, fun _ => none⟩ ⟨16, "/usr/pgsql-16/bin/pg_config"⟩ ⟨none, none⟩ =
      extProbeVersion ⟨some ⟨17⟩, fun _ => some ⟨17⟩⟩ ⟨16, "/usr/pgsql-16/bin/pg_config"⟩
        ⟨some ⟨14⟩, some ⟨14⟩⟩ :=
  extProbeVersion_mutual_exclusion _ _ _ _ _ (by decide) (by decide)

/-- Claim C2: with no explicit version and a pg_config path set, a
successful resolution to an installation with major version M makes the
resolver return M (for every prior state, so neither 0 nor any prior
active value), while a failed resolution aborts with exit code 3 — a
code distinct from the mutual-exclusion code 1 and non-zero — with
nothing printed to stdout. -/
theorem extProbeVersion_config_path (env : Env) (fl : Flags) (st0 : ExtState)
    (hv : fl.extPgVer = 0) (hp : fl.extPgConfig ≠ "") :
    (∀ p, env.getPostgres fl.extPgConfig = some p →
      extProbeVersion env fl st0 =
        { result := ProbeResult.ok p.MajorVersion { st0 with active := env.detectedActive },
          errlog := [], stdout := [] }) ∧
    (env.getPostgres fl.extPgConfig = none →
      (extProbeVersion env fl st0).result = ProbeResult.exit 3 ∧
      (extProbeVersion env fl st0).stdout = [] ∧ (3 : Nat) ≠ 1 ∧ (3 : Nat) ≠ 0) := by
  constructor
  · intro p hget
    simp [extProbeVersion, hv, hp, hget]
  · intro hget
    refine ⟨?_, ?_, by decide, by decide⟩ <;> simp [extProbeVersion, hv, hp, hget]

theorem extProbeVersion_config_path_witness :
    extProbeVersion
        ⟨none, fun s => if s = "/opt/pg16/bin/pg_config" then some ⟨16⟩ else none⟩
        ⟨0, "/opt/pg16/bin/pg_config"⟩ ⟨some ⟨14⟩, none⟩ =
      { result := ProbeResult.ok 16 ⟨some ⟨14⟩, none⟩, errlog := [], stdout := [] } ∧
    (extProbeVersion ⟨none, fun _ => none⟩ ⟨0, "/bad/path"⟩ ⟨some ⟨14⟩, none⟩).result =
      ProbeResult.exit 3 ∧
    (extProbeVersion ⟨none, fun _ => none⟩ ⟨0, "/bad/path"⟩ ⟨some ⟨14⟩, none⟩).stdout = [] :=
  ⟨(extProbeVersion_config_path _ _ _ (by decide) (by decide)).1 ⟨16⟩ (by decide),
   ((extProbeVersion_config_path _ _ _ (by decide) (by decide)).2 (by decide)).1,
   ((extProbeVersion_config_path _ _ _ (by decide) (by decide)).2 (by decide)).2.1⟩

/-- Claim C3: with an explicit version V and no pg_config path, the
resolver returns V and never aborts, for every environment — in
particular whether or not GetPostgres can find an installation V. -/
theorem extProbeVersion_explicit_version (env : Env) (fl : Flags) (st0 : ExtState)
    (hv : fl.extPgVer ≠ 0) (hp : fl.extPgConfig = "") :
    extProbeVersion env fl st0 =
      { result := ProbeResult.ok fl.extPgVer { st0 with active := env.detectedActive },
        errlog := [], stdout := [] } := by
  simp [extProbeVersion, hv, hp]

theorem extProbeVersion_explicit_version_witness :
    extProbeVersion ⟨none, fun _ => none⟩ ⟨15, ""⟩ ⟨none, none⟩ =
      { result := ProbeResult.ok 15 ⟨none, none⟩, errlog := [], stdout := [] } :=
  extProbeVersion_explicit_version _ _ _ (by decide) rfl

/-- Claim C4: with neither flag set, the resolver adopts a detected
active installation as the current one (ext.Postgres) and returns its
major version; with no active installation detected it returns 0 with no
error logged and no abort. -/
theorem extProbeVersion_no_flags (env : Env) (fl : Flags) (st0 : ExtState)
    (hv : fl.extPgVer = 0) (hp : fl.extPgConfig = "") :
    (∀ a, env.detectedActive = some a →
      extProbeVersion env fl st0 =
        { result := ProbeResult.ok a.MajorVersion { postgres := some a, active := some a },
          errlog := [], stdout := [] }) ∧
    (env.detectedActive = none →
      extProbeVersion env fl st0 =
        { result := ProbeResult.ok 0 { st0 with active := none },
          errlog := [], stdout := [] }) := by
  constructor
  · intro a ha
    simp [extProbeVersion, hv, hp, ha]
  · intro ha
    simp [extProbeVersion, hv, hp, ha]

theorem extProbeVersion_no_flags_witness :
    extProbeVersion ⟨some ⟨16⟩, fun _ => none⟩ ⟨0, ""⟩ ⟨none, none⟩ =
      { result := ProbeResult.ok 16 ⟨some ⟨16⟩, some ⟨16⟩⟩, errlog := [], stdout := [] } ∧
    extProbeVersion ⟨none, fun _ => none⟩ ⟨0, ""⟩ ⟨none, none⟩ =
      { result := ProbeResult.ok 0 ⟨none, none⟩, errlog := [], stdout := [] } :=
  ⟨(extProbeVersion_no_flags _ _ _ rfl rfl).1 ⟨16⟩ rfl,
   (extProbeVersion_no_flags _ _ _ rfl rfl).2 rfl⟩

/-- Claim C9: with an explicit version and no pg_config path the resolver
returns the flag value leaving ext.Postgres untouched, and more generally
the only runs of the resolver that change ext.Postgres are the no-flags
runs that adopt the detected active installation. -/
theorem extProbeVersion_postgres_frame (env : Env) (fl : Flags) (st0 : ExtState) :
    (fl.extPgVer ≠ 0 → fl.extPgConfig = "" →
      extProbeVersion env fl st0 =
        { result := ProbeResult.ok fl.extPgVer { st0 with active := env.detectedActive },
          errlog := [], stdout := [] }) ∧
    (∀ v st1, (extProbeVersion env fl st0).result = ProbeResult.ok v st1 →
      st1.postgres ≠ st0.postgres →
      fl.extPgVer = 0 ∧ fl.extPgConfig = "" ∧ st1.postgres = env.detectedActive) := by
  constructor
  · intro hv hp
    simp [extProbeVersion, hv, hp]
  · intro v st1 hres hne
    by_cases hv : fl.extPgVer = 0
    · by_cases hp : fl.extPgConfig = ""
      · cases ha : env.detectedActive with
        | some a =>
          simp [extProbeVersion, hv, hp, ha] at hres
          exact ⟨hv, hp, by rw [← hres.2]⟩
        | none =>
          simp [extProbeVersion, hv, hp, ha] at hres
          exact absurd (by rw [← hres.2]) hne
      · cases hg : env.getPostgres fl.extPgConfig with
        | none => simp [extProbeVersion, hv, hp, hg] at hres
        | some p =>
          simp [extProbeVersion, hv, hp, hg] at hres
          exact absurd (by rw [← hres.2]) hne
    · by_cases hp : fl.extPgConfig = ""
      · simp [extProbeVersion, hv, hp] at hres
        exact absurd (by rw [← hres.2]) hne
      · simp [extProbeVersion, hv, hp] at hres

theorem extProbeVersion_postgres_frame_witness :
    extProbeVersion ⟨some ⟨16⟩, fun _ => some ⟨16⟩⟩ ⟨15, ""⟩ ⟨none, none⟩ =
      { result := ProbeResult.ok 15 ⟨none, some ⟨16⟩⟩, errlog := [], stdout := [] } ∧
    ((0 : Int) = 0 ∧ ("" : String) = "" ∧ (some (⟨16⟩ : Postgres) : Option Postgres) = some ⟨16⟩) :=
  ⟨(extProbeVersion_postgres_frame ⟨some ⟨16⟩, fun _ => some ⟨16⟩⟩ ⟨15, ""⟩ ⟨none, none⟩).1
      (by decide) rfl,
   (extProbeVersion_postgres_frame ⟨some ⟨16⟩, fun _ => some ⟨16⟩⟩ ⟨0, ""⟩ ⟨none, none⟩).2
      16 ⟨some ⟨16⟩, some ⟨16⟩⟩ (by decide) (by decide)⟩

/-! ### Sample catalog data for the witnesses, following the example
scenario of spec section 8. -/

/-- The postgis entry of the example scenario (spec section 8). -/
def sampleExtension : Extension :=
  { Name := "postgis", Alias := "gis", Category := "GIS", Version := "3.5.0",
    License := "GPLv2", URL := "https://postgis.net", SummaryURL := "",
    EnDesc := "PostGIS geometry and geography spatial types and functions",
    PgVer := ["14", "15", "16"], NeedDDL := true, NeedLoad := false,
    CreateSQL := "CREATE EXTENSION postgis", SharedLib := "", SuperUser := "",
    Relocatable := "t", SchemaStr := "", Requires := [],
    NeedBy := ["postgis_raster"], RpmRepo := "pgdg", RpmPkg := "postgis35",
    RpmVer := "3.5.0", RpmPg := ["16"], RpmDeps := ["gdal"], DebRepo := "pgdg",
    DebPkg := "postgresql-16-postgis-3", DebVer := "3.5.0", DebPg := ["16"],
    DebDeps := ["libgdal"], BadCase := [], Comment := "" }

/-- A second entry whose canonical name collides with the alias of
sampleExtension, and whose DebDeps is empty while RpmDeps is not. -/
def sampleExtension2 : Extension :=
  { Name := "gis", Alias := "geo", Category := "GIS", Version := "1.0",
    License := "MIT", URL := "", SummaryURL := "", EnDesc := "a gis toolkit",
    PgVer := ["16"], NeedDDL := false, NeedLoad := false, CreateSQL := "",
    SharedLib := "", SuperUser := "", Relocatable := "", SchemaStr := "",
    Requires := ["postgis"], NeedBy := [], RpmRepo := "pgdg",
    RpmPkg := "gis10", RpmVer := "1.0", RpmPg := ["16"], RpmDeps := ["proj"],
    DebRepo := "pgdg", DebPkg := "gis", DebVer := "1.0", DebPg := ["16"],
    DebDeps := [], BadCase := [], Comment := "" }

/-- A catalog holding the example entry under its name and alias. -/
def sampleCatalog : Catalog :=
  { ExtNameMap := [("postgis", sampleExtension)],
    ExtAliasMap := [("gis", sampleExtension)] }

/-- A catalog where the identifier gis is a key of both maps, bound to
different entries. -/
def shadowCatalog : Catalog :=
  { ExtNameMap := [("postgis", sampleExtension), ("gis", sampleExtension2)],
    ExtAliasMap := [("gis", sampleExtension)] }

/-! ### Claims about the info command -/

/-- Unfolded description of the info loop: the cards printed are exactly
the resolved identifiers in order, the error log holds one miss message
per unresolved identifier in order, and every argument is looked up. -/
theorem extInfoLoop_eq (cat : Catalog) (args : List String) :
    (extInfoLoop cat args).stdout =
      (args.filterMap (lookupExtension cat)).map Extension.PrintInfo ∧
    (extInfoLoop cat args).errlog =
      (args.filter fun n => (lookupExtension cat n).isNone).map missMsg ∧
    (extInfoLoop cat args).lookups = args := by
  induction args with
  | nil => simp [extInfoLoop]
  | cons name rest ih =>
    cases h : lookupExtension cat name with
    | some e => simp [extInfoLoop, h, ih.1, ih.2.1, ih.2.2]
    | none => simp [extInfoLoop, h, ih.1, ih.2.1, ih.2.2]

/-- Claim C6: the per-identifier lookup of the info command consults the
canonical-name map first and the alias map only on a miss; when both
maps contain the identifier, the entry of the name map is the one whose
card is rendered. -/
theorem lookupExtension_name_precedence (cat : Catalog) (id : String)
    (e1 e2 : Extension) (h1 : cat.ExtNameMap.lookup id = some e1)
    (_h2 : cat.ExtAliasMap.lookup id = some e2) :
    lookupExtension cat id = some e1 ∧
    (extInfoLoop cat [id]).stdout = [e1.PrintInfo] := by
  have hl : lookupExtension cat id = some e1 := by
    simp [lookupExtension, h1]
  exact ⟨hl, by simp [extInfoLoop, hl]⟩

theorem lookupExtension_name_precedence_witness :
    lookupExtension shadowCatalog "gis" = some sampleExtension2 ∧
    (extInfoLoop shadowCatalog ["gis"]).stdout = [sampleExtension2.PrintInfo] :=
  lookupExtension_name_precedence shadowCatalog "gis" sampleExtension2 sampleExtension
    (by decide) (by decide)

/-- Claim C7: whenever the version probe lets the info command proceed, a
lookup miss is non-fatal: the command still returns nil, every argument
is looked up, each miss is logged per item, and every identifier that
does resolve gets its card rendered, in order. -/
theorem extInfoCmd_misses_nonfatal (env : Env) (fl : Flags) (st : ExtState)
    (cat : Catalog) (args : List String) (v : Int) (st1 : ExtState)
    (hprobe : (extProbeVersion env fl st).result = ProbeResult.ok v st1) :
    extInfoCmd env fl st cat args =
      CmdResult.ok
        { stdout := (args.filterMap (lookupExtension cat)).map Extension.PrintInfo,
          errlog := (args.filter fun n => (lookupExtension cat n).isNone).map missMsg,
          lookups := args } := by
  obtain ⟨h1, h2, h3⟩ := extInfoLoop_eq cat args
  have heta : extInfoLoop cat args =
      { stdout := (extInfoLoop cat args).stdout,
        errlog := (extInfoLoop cat args).errlog,
        lookups := (extInfoLoop cat args).lookups } := rfl
  simp [extInfoCmd, hprobe]
  rw [heta, h1, h2, h3]

theorem extInfoCmd_misses_nonfatal_witness :
    (["nosuchext", "gis"].filterMap (lookupExtension sampleCatalog)) = [sampleExtension] ∧
    extInfoCmd ⟨none, fun _ => none⟩ ⟨0, ""⟩ ⟨none, none⟩ sampleCatalog ["nosuchext", "gis"] =
      CmdResult.ok
        { stdout :=
            ((["nosuchext", "gis"].filterMap (lookupExtension sampleCatalog)).map
              Extension.PrintInfo),
          errlog :=
            ((["nosuchext", "gis"].filter
              fun n => (lookupExtension sampleCatalog n).isNone).map missMsg),
          lookups := ["nosuchext", "gis"] } :=
  ⟨by decide,
   extInfoCmd_misses_nonfatal ⟨none, fun _ => none⟩ ⟨0, ""⟩ ⟨none, none⟩ sampleCatalog
     ["nosuchext", "gis"] 0 ⟨none, none⟩ (by decide)⟩

/-- Claim C10: whenever the version probe lets the info command proceed,
an empty argument list performs no catalog lookups, renders nothing, and
the command returns nil — an empty batch is not an error. -/
theorem extInfoCmd_empty_args (env : Env) (fl : Flags) (st : ExtState)
    (cat : Catalog) (v : Int) (st1 : ExtState)
    (hprobe : (extProbeVersion env fl st).result = ProbeResult.ok v st1) :
    extInfoCmd env fl st cat [] =
      CmdResult.ok { stdout := [], errlog := [], lookups := [] } := by
  simp [extInfoCmd, hprobe, extInfoLoop]

theorem extInfoCmd_empty_args_witness :
    extInfoCmd ⟨none, fun _ => none⟩ ⟨0, ""⟩ ⟨none, none⟩ sampleCatalog [] =
      CmdResult.ok { stdout := [], errlog := [], lookups := [] } :=
  extInfoCmd_empty_args ⟨none, fun _ => none⟩ ⟨0, ""⟩ ⟨none, none⟩ sampleCatalog
    0 ⟨none, none⟩ (by decide)

/-! ### Claims about the detail renderer -/

theorem lineTag_line (n : Nat) (a b c : String) (h : n < a.data.length) (x : Char)
    (hx : lineTag n a = some x) : lineTag n (a ++ b ++ c) = some x := by
  rw [lineTag_append2 n a b c h, hx]

/-- Claim C5: inside the rendered RPM package block the dependency line
(which joins RpmDeps) appears exactly when DebDeps is non-empty — the
gate is cross-wired to the Deb dependency set — and the DEB package
block gates its own dependency line on the same DebDeps list. -/
theorem rpmDepLine_gated_on_DebDeps (e : Extension) (hr : e.RpmRepo ≠ "") :
    (rpmDepLine e ∈ rpmPackageBlock e ↔ e.DebDeps ≠ []) ∧
    (e.DebRepo ≠ "" → (debDepLine e ∈ debPackageBlock e ↔ e.DebDeps ≠ [])) := by
  have tagR : lineTag 2 (rpmDepLine e) = some 'D' := by
    unfold rpmDepLine
    exact lineTag_line 2 _ _ _ (by decide) 'D' (by decide)
  have hrepo : lineTag 2 ("│ Repository     │  " ++ pad 56 e.RpmRepo ++ " │") = some 'R' :=
    lineTag_line 2 _ _ _ (by decide) 'R' (by decide)
  have hpkg : lineTag 2 ("│ Package        │  " ++ pad 56 e.RpmPkg ++ " │") = some 'P' :=
    lineTag_line 2 _ _ _ (by decide) 'P' (by decide)
  have hver : lineTag 2 ("│ Version        │  " ++ pad 56 e.RpmVer ++ " │") = some 'V' :=
    lineTag_line 2 _ _ _ (by decide) 'V' (by decide)
  have havail : lineTag 2 ("│ Availability   │  " ++ pad 56 (join e.RpmPg ", ") ++ " │") =
      some 'A' :=
    lineTag_line 2 _ _ _ (by decide) 'A' (by decide)
  have tagD : lineTag 3 (debDepLine e) = some 'e' := by
    unfold debDepLine
    exact lineTag_line 3 _ _ _ (by decide) 'e' (by decide)
  have tagD2 : lineTag 2 (debDepLine e) = some 'D' := by
    unfold debDepLine
    exact lineTag_line 2 _ _ _ (by decide) 'D' (by decide)
  have hrepoD : lineTag 2 ("│ Repository     │  " ++ pad 56 e.DebRepo ++ " │") = some 'R' :=
    lineTag_line 2 _ _ _ (by decide) 'R' (by decide)
  have hpkgD : lineTag 2 ("│ Package        │  " ++ pad 56 e.DebPkg ++ " │") = some 'P' :=
    lineTag_line 2 _ _ _ (by decide) 'P' (by decide)
  have hverD : lineTag 2 ("│ Version        │  " ++ pad 56 e.DebVer ++ " │") = some 'V' :=
    lineTag_line 2 _ _ _ (by decide) 'V' (by decide)
  have havailD : lineTag 2 ("│ Availability   │  " ++ pad 56 (join e.DebPg ", ") ++ " │") =
      some 'A' :=
    lineTag_line 2 _ _ _ (by decide) 'A' (by decide)
  constructor
  · constructor
    · intro hmem hd
      have hblock : rpmPackageBlock e =
          [sepLine,
           "│ RPM Package                                                                │",
           sepLine,
           "│ Repository     │  " ++ pad 56 e.RpmRepo ++ " │",
           "│ Package        │  " ++ pad 56 e.RpmPkg ++ " │",
           "│ Version        │  " ++ pad 56 e.RpmVer ++ " │",
           "│ Availability   │  " ++ pad 56 (join e.RpmPg ", ") ++ " │"] := by
        simp [rpmPackageBlock, hr, hd]
      rw [hblock] at hmem
      refine absurd hmem ?_
      simp only [List.mem_cons, List.not_mem_nil, or_false, not_or]
      refine ⟨?_, ?_, ?_, ?_, ?_, ?_, ?_⟩
      · exact @ne_of_lineTag 2 _ _ (by rw [tagR]; decide)
      · exact @ne_of_lineTag 2 _ _ (by rw [tagR]; decide)
      · exact @ne_of_lineTag 2 _ _ (by rw [tagR]; decide)
      · exact @ne_of_lineTag 2 _ _ (by rw [tagR, hrepo]; decide)
      · exact @ne_of_lineTag 2 _ _ (by rw [tagR, hpkg]; decide)
      · exact @ne_of_lineTag 2 _ _ (by rw [tagR, hver]; decide)
      · exact @ne_of_lineTag 2 _ _ (by rw [tagR, havail]; decide)
    · intro hd
      simp [rpmPackageBlock, hr, hd]
  · intro hdr
    constructor
    · intro hmem hd
      have hblock : debPackageBlock e =
          [sepLine,
           "│ DEB Package                                                                │",
           sepLine,
           "│ Repository     │  " ++ pad 56 e.DebRepo ++ " │",
           "│ Package        │  " ++ pad 56 e.DebPkg ++ " │",
           "│ Version        │  " ++ pad 56 e.DebVer ++ " │",
           "│ Availability   │  " ++ pad 56 (join e.DebPg ", ") ++ " │"] := by
        simp [debPackageBlock, hdr, hd]
      rw [hblock] at hmem
      refine absurd hmem ?_
      simp only [List.mem_cons, List.not_mem_nil, or_false, not_or]
      refine ⟨?_, ?_, ?_, ?_, ?_, ?_, ?_⟩
      · exact @ne_of_lineTag 2 _ _ (by rw [tagD2]; decide)
      · exact @ne_of_lineTag 3 _ _ (by rw [tagD]; decide)
      · exact @ne_of_lineTag 2 _ _ (by rw [tagD2]; decide)
      · exact @ne_of_lineTag 2 _ _ (by rw [tagD2, hrepoD]; decide)
      · exact @ne_of_lineTag 2 _ _ (by rw [tagD2, hpkgD]; decide)
      · exact @ne_of_lineTag 2 _ _ (by rw [tagD2, hverD]; decide)
      · exact @ne_of_lineTag 2 _ _ (by rw [tagD2, havailD]; decide)
    · intro hd
      simp [debPackageBlock, hdr, hd]

theorem rpmDepLine_gated_on_DebDeps_witness :
    ((rpmDepLine sampleExtension ∈ rpmPackageBlock sampleExtension) ↔
      sampleExtension.DebDeps ≠ []) ∧
    ((rpmDepLine sampleExtension2 ∈ rpmPackageBlock sampleExtension2) ↔
      sampleExtension2.DebDeps ≠ []) :=
  ⟨(rpmDepLine_gated_on_DebDeps sampleExtension (by decide)).1,
   (rpmDepLine_gated_on_DebDeps sampleExtension2 (by decide)).1⟩

theorem mem_lines_of_mem_needByBlock {e : Extension} {s : String}
    (hs : s ∈ needByBlock e) : s ∈ extensionInfoLines e := by
  unfold extensionInfoLines
  exact List.mem_append_left _ (List.mem_append_left _ (List.mem_append_left _
    (List.mem_append_left _ (List.mem_append_left _ (List.mem_append_right _ hs)))))

/-- Claim C8: when an extension resolves both through its canonical name
(in the name map) and through its alias, the info command renders the
same single card for both identifiers; with empty Requires the rendering
contains the Depend No line, and with non-empty NeedBy it contains the
Required By header and one item line per dependent name. -/
theorem extInfo_name_alias_identical (cat : Catalog) (e : Extension)
    (h1 : cat.ExtNameMap.lookup e.Name = some e)
    (h2 : lookupExtension cat e.Alias = some e) :
    (extInfoLoop cat [e.Name]).stdout = (extInfoLoop cat [e.Alias]).stdout ∧
    (extInfoLoop cat [e.Name]).stdout = [e.PrintInfo] ∧
    (e.Requires = [] → dependNoLine ∈ extensionInfoLines e) ∧
    (e.NeedBy ≠ [] → requiredByHeader ∈ extensionInfoLines e ∧
      ∀ d ∈ e.NeedBy, needByItem d ∈ extensionInfoLines e) := by
  have hl1 : lookupExtension cat e.Name = some e := by
    simp [lookupExtension, h1]
  refine ⟨?_, ?_, ?_, ?_⟩
  · simp [extInfoLoop, hl1, h2]
  · simp [extInfoLoop, hl1]
  · intro hreq
    have hdep : dependLine e = dependNoLine := by
      simp [dependLine, hreq, dependNoLine]
    rw [← hdep]
    unfold extensionInfoLines
    exact List.mem_append_left _ (List.mem_append_left _ (List.mem_append_left _
      (List.mem_append_left _ (List.mem_append_left _ (List.mem_append_left _ (by simp))))))
  · intro hnb
    constructor
    · refine mem_lines_of_mem_needByBlock ?_
      simp [needByBlock, hnb]
    · intro d hd
      refine mem_lines_of_mem_needByBlock ?_
      unfold needByBlock
      rw [if_pos hnb]
      exact List.mem_cons_of_mem _ (List.mem_cons_of_mem _ (List.mem_cons_of_mem _
        (List.mem_map_of_mem needByItem hd)))

theorem extInfo_name_alias_identical_witness :
    (extInfoLoop sampleCatalog [sampleExtension.Name]).stdout =
      (extInfoLoop sampleCatalog [sampleExtension.Alias]).stdout ∧
    (extInfoLoop sampleCatalog [sampleExtension.Name]).stdout = [sampleExtension.PrintInfo] ∧
    dependNoLine ∈ extensionInfoLines sampleExtension ∧
    requiredByHeader ∈ extensionInfoLines sampleExtension ∧
    needByItem "postgis_raster" ∈ extensionInfoLines sampleExtension := by
  have h := extInfo_name_alias_identical sampleCatalog sampleExtension (by decide) (by decide)
  exact ⟨h.1, h.2.1, h.2.2.1 rfl, (h.2.2.2 (by decide)).1,
    (h.2.2.2 (by decide)).2 "postgis_raster" (by decide)⟩

end Pig
